import Mathlib

/-!
Verification development for the JSON import/export subsystem of qpdf
(`libqpdf/QPDF_json.cc`).  The reactor (`QPDF::JSONReactor`) is a push-driven
state machine receiving structural parse events; we embed it shallowly: the
reactor's mutable fields become a Lean structure, each callback becomes a
function on that structure (returning `Except` where the C++ can throw), and
the document's object table becomes an explicit arena plus an ObjGen-indexed
table so that handle sharing and in-place replacement behave as in the source.
Functions of the wider qpdf library that are not part of `QPDF_json.cc`
(`QUtil::is_long_long`, `QPDF::getAllObjects`, ...) are modelled from the spec
and marked as such.
-/

namespace QPDFJson

/-- Reactor states, `QPDF::JSONReactor::state_e`. -/
inductive State where
  | st_initial
  | st_top
  | st_qpdf
  | st_objects
  | st_trailer
  | st_object_top
  | st_stream
  | st_object
  | st_ignore
deriving DecidableEq, Repr

open State

/-- The shape of a JSON value as observed by the reactor: the reactor only
inspects the top-level type of each delivered value (container members arrive
through their own events), so a flat tag suffices. -/
inductive JSONVal where
  | jnull
  | jbool (b : Bool)
  | jnumber (s : String)
  | jstring (s : String)
  | jarray
  | jdict
deriving DecidableEq, Repr

open JSONVal

/-- A JSON value together with its source byte span (`getStart`/`getEnd`).
`jend` models `getEnd`; `end` is a Lean keyword. -/
structure JSON where
  val : JSONVal
  start : Nat
  jend : Nat
deriving DecidableEq, Repr

/-- Model of `JSON::isDictionary`. -/
def JSON.isDictionary (v : JSON) : Bool :=
  match v.val with
  | jdict => true
  | _ => false

/-- Model of `JSON::getString` (returns the string when the value is a string). -/
def JSON.getString (v : JSON) : Option String :=
  match v.val with
  | jstring s => some s
  | _ => none

/-- Model of `JSON::getNumber` (returns the textual form when the value is a number). -/
def JSON.getNumber (v : JSON) : Option String :=
  match v.val with
  | jnumber s => some s
  | _ => none

/-- Model of `JSON::getBool`. -/
def JSON.getBool (v : JSON) : Option Bool :=
  match v.val with
  | jbool b => some b
  | _ => none

/-- Model of `QPDFObjGen`: (object id, generation). The source stores `int`s. -/
structure ObjGen where
  obj : Int
  gen : Int
deriving DecidableEq, Repr

/-- Deferred stream payload descriptor (`replaceStreamData` argument):
either no data yet, an inline base64 byte range of the input
(`provide_data(is, start, end)`), or an external file
(`QUtil::file_provider(filename)`). -/
inductive StreamData where
  | nodata
  | inlineRange (start fin : Nat)
  | file (filename : String)
deriving DecidableEq, Repr

/-- A handle (`QPDFObjectHandle`): either uninitialized, an indirect handle
addressed by ObjGen through the document's table, or a direct object
addressed by its arena index. -/
inductive Handle where
  | uninitialized
  | ind (og : ObjGen)
  | direct (i : Nat)
deriving DecidableEq, Repr

/-- A graph node.  Containers hold member handles (the table/arena owns the
nodes; holders keep references), matching qpdf's shared-object semantics. -/
inductive QObj where
  | reserved
  | null
  | bool (b : Bool)
  | integer (i : Int)
  | real (s : String)
  | string (bytes : List Nat)
  | uString (s : String)
  | name (s : String)
  | array (items : List Handle)
  | dict (items : List (String × Handle))
  | stream (sdict : Handle) (sdata : StreamData)
deriving DecidableEq, Repr

/-- The document-side state the reactor mutates (the parts of `QPDF` that
`QPDF_json.cc` touches): an arena of nodes, the indirect-object table mapping
ObjGen to an arena index, the stored PDF version, the trailer, and the list of
recorded warnings (`QPDF::warn`), each an (offset, message) pair. -/
structure PDFState where
  arena : List QObj
  table : List (ObjGen × Nat)
  pdf_version : String
  trailer : Handle
  warns : List (Nat × String)
deriving DecidableEq, Repr

/-- Resolve a handle to its node, if any. -/
def PDFState.resolve (p : PDFState) (h : Handle) : Option QObj :=
  match h with
  | Handle.uninitialized => none
  | Handle.ind og =>
      match p.table.lookup og with
      | some i => p.arena.get? i
      | none => none
  | Handle.direct i => p.arena.get? i

/-- Resolve an ObjGen through the table. -/
def PDFState.resolveOg (p : PDFState) (og : ObjGen) : Option QObj :=
  match p.table.lookup og with
  | some i => p.arena.get? i
  | none => none

/-- Allocate a fresh direct node in the arena, returning its handle. -/
def PDFState.alloc (p : PDFState) (o : QObj) : Handle × PDFState :=
  (Handle.direct p.arena.length, { p with arena := p.arena ++ [o] })

/-- The arena index a handle refers to, if any. -/
def PDFState.indexOf (p : PDFState) (h : Handle) : Option Nat :=
  match h with
  | Handle.uninitialized => none
  | Handle.ind og => p.table.lookup og
  | Handle.direct i => some i

/-- Overwrite the arena entry a handle refers to (in-place mutation through a
shared handle, as C++ mutation of the pointed-to object). -/
def PDFState.setObj (p : PDFState) (h : Handle) (o : QObj) : PDFState :=
  match p.indexOf h with
  | some i => { p with arena := p.arena.set i o }
  | none => p

/-- Model of `QPDF::reserveObjectIfNotExists`: if the ObjGen is unknown, create a
reserved node for it; either way return the indirect handle. -/
def PDFState.reserveObjectIfNotExists (p : PDFState) (og : ObjGen) :
    Handle × PDFState :=
  match p.table.lookup og with
  | some _ => (Handle.ind og, p)
  | none =>
      (Handle.ind og,
        { p with
          arena := p.arena ++ [QObj.reserved],
          table := (og, p.arena.length) :: p.table })

/-- Model of `QPDF::replaceObject(og, oh)`: make the table entry for `og` refer to the
replacement handle's node. -/
def PDFState.replaceObject (p : PDFState) (og : ObjGen) (h : Handle) :
    PDFState :=
  match p.indexOf h with
  | some i => { p with table := (og, i) :: p.table }
  | none => p

/-- Modelled from the spec: `QPDF::reserveStream` is not part of
`QPDF_json.cc`; per the spec, `stream` "reserves a stream node if not already
one", so we create a fresh stream node for the ObjGen and return its handle. -/
def PDFState.reserveStream (p : PDFState) (og : ObjGen) : Handle × PDFState :=
  (Handle.ind og,
    { p with
      arena := p.arena ++ [QObj.stream Handle.uninitialized StreamData.nodata],
      table := (og, p.arena.length) :: p.table })

/-- One step of the reserved-object cleanup loop in `containerEnd`:
`pdf.replaceObject(og, QPDFObjectHandle::newNull())`. -/
def PDFState.replaceWithNull (p : PDFState) (og : ObjGen) : PDFState :=
  (p.alloc QObj.null).2.replaceObject og (p.alloc QObj.null).1

/-- Model of `QPDF::warn` as used by the reactor: record an (offset, message) pair. -/
def PDFState.warn (p : PDFState) (offset : Nat) (msg : String) : PDFState :=
  { p with warns := p.warns ++ [(offset, msg)] }

/-- Model of `QPDFObjectHandle::isInitialized`. -/
def Handle.isInitialized : Handle → Bool
  | Handle.uninitialized => false
  | _ => true

/-- Model of `QPDFObjectHandle::getObjectID` (0 for a direct object, as in qpdf). -/
def Handle.getObjectID : Handle → Int
  | Handle.ind og => og.obj
  | _ => 0

/-- Model of `QPDFObjectHandle::getGeneration` (0 for a direct object, as in qpdf). -/
def Handle.getGeneration : Handle → Int
  | Handle.ind og => og.gen
  | _ => 0

/-- Model of `QPDFObjectHandle::getObjGen`. -/
def Handle.getObjGen : Handle → ObjGen
  | Handle.ind og => og
  | _ => ⟨0, 0⟩

/-- Whether a handle currently resolves to a stream node
(`QPDFObjectHandle::isStream`). -/
def PDFState.isStream (p : PDFState) (h : Handle) : Bool :=
  match p.resolve h with
  | some (QObj.stream _ _) => true
  | _ => false

/-- Whether a handle currently resolves to a reserved node
(`QPDFObjectHandle::isReserved`). -/
def PDFState.isReserved (p : PDFState) (h : Handle) : Bool :=
  match p.resolve h with
  | some QObj.reserved => true
  | _ => false

/-- Whether a handle currently resolves to a dictionary node
(`QPDFObjectHandle::isDictionary`). -/
def PDFState.isDictionaryObj (p : PDFState) (h : Handle) : Bool :=
  match p.resolve h with
  | some (QObj.dict _) => true
  | _ => false

/-- Model of `tos.replaceDict(d)`: replace the dictionary of the stream `h` refers to. -/
def PDFState.replaceDict (p : PDFState) (h : Handle) (d : Handle) : PDFState :=
  match p.resolve h with
  | some (QObj.stream _ sd) => p.setObj h (QObj.stream d sd)
  | _ => p

/-- Model of `tos.replaceStreamData(...)`: install the deferred payload descriptor on
the stream `h` refers to. -/
def PDFState.replaceStreamData (p : PDFState) (h : Handle) (d : StreamData) :
    PDFState :=
  match p.resolve h with
  | some (QObj.stream sdict _) => p.setObj h (QObj.stream sdict d)
  | _ => p

/-- Model of `tos.getDict()` for a stream handle: the handle of its dictionary. -/
def PDFState.getDictOf (p : PDFState) (h : Handle) : Handle :=
  match p.resolve h with
  | some (QObj.stream sdict _) => sdict
  | _ => Handle.uninitialized

/-- Set (replacing if present, appending otherwise) a key of a dictionary's
member list, as `QPDFObjectHandle::replaceKey`. -/
def setKey : List (String × Handle) → String → Handle → List (String × Handle)
  | [], k, v => [(k, v)]
  | (k0, v0) :: rest, k, v =>
      if k0 = k then (k, v) :: rest else (k0, v0) :: setKey rest k v

/-- Model of `dict.replaceKey(key, value)` through a handle. -/
def PDFState.replaceKey (p : PDFState) (h : Handle) (k : String) (v : Handle) :
    PDFState :=
  match p.resolve h with
  | some (QObj.dict items) => p.setObj h (QObj.dict (setKey items k v))
  | _ => p

/-- Model of `tos.appendItem(value)` through a handle. -/
def PDFState.appendItem (p : PDFState) (h : Handle) (v : Handle) : PDFState :=
  match p.resolve h with
  | some (QObj.array items) => p.setObj h (QObj.array (items ++ [v]))
  | _ => p

/-! ### The compiled regular expressions

The source compiles six anchored regexes.  We express each as a structurally
recursive matcher over the string's character list, so every matcher is fully
executable by the kernel. -/

/-- Nonempty sequence of decimal digits (`\d+`). -/
def digits1 (l : List Char) : Bool :=
  match l with
  | [] => false
  | _ => l.all Char.isDigit

/-- Split a character list at every occurrence of a separator character. -/
def splitOnChar (sep : Char) : List Char → List (List Char)
  | [] => [[]]
  | c :: rest =>
      match splitOnChar sep rest with
      | [] => if c = sep then [[], []] else [[c]]
      | g :: gs => if c = sep then [] :: g :: gs else (c :: g) :: gs

/-- Model of `PDF_VERSION_RE`: `^\d+\.\d+$`. -/
def pdf_version_re (l : List Char) : Bool :=
  match splitOnChar '.' l with
  | [a, b] => digits1 a && digits1 b
  | _ => false

/-- Model of `INDIRECT_OBJ_RE`: `^(\d+) (\d+) R$`, returning the two captures. -/
def indirect_obj_re (l : List Char) : Option (List Char × List Char) :=
  match splitOnChar ' ' l with
  | [a, b, c] => if digits1 a && digits1 b && c = ['R'] then some (a, b) else none
  | _ => none

/-- Model of `OBJ_KEY_RE`: `^obj:(\d+) (\d+) R$`, returning the two captures. -/
def obj_key_re (l : List Char) : Option (List Char × List Char) :=
  match l with
  | 'o' :: 'b' :: 'j' :: ':' :: rest => indirect_obj_re rest
  | _ => none

/-- Model of `UNICODE_RE`: `^u:([\s\S]*)$`, returning the capture. -/
def unicode_re (l : List Char) : Option (List Char) :=
  match l with
  | 'u' :: ':' :: rest => some rest
  | _ => none

/-- Hexadecimal digit, as accepted by `BINARY_RE`. -/
def isHexChar (c : Char) : Bool :=
  c.isDigit || ('a' ≤ c && c ≤ 'f') || ('A' ≤ c && c ≤ 'F')

/-- Even-length sequence of hex digits (`(?:[0-9a-fA-F]{2})*`). -/
def hexPairs : List Char → Bool
  | [] => true
  | [_] => false
  | a :: b :: rest => isHexChar a && isHexChar b && hexPairs rest

/-- Model of `BINARY_RE`: `^b:((?:[0-9a-fA-F]{2})*)$`, returning the capture. -/
def binary_re (l : List Char) : Option (List Char) :=
  match l with
  | 'b' :: ':' :: rest => if hexPairs rest then some rest else none
  | _ => none

/-- Model of `NAME_RE`: `^/[\s\S]*$`. -/
def name_re (l : List Char) : Bool :=
  match l with
  | '/' :: _ => true
  | _ => false

/-! ### QUtil helpers

These live outside `QPDF_json.cc`; they are modelled from the spec. -/

/-- Accumulate decimal digits into a natural number. -/
def digitsToNat : List Char → Nat → Nat
  | [], acc => acc
  | c :: rest, acc => digitsToNat rest (acc * 10 + (c.toNat - '0'.toNat))

/-- Modelled from the spec: `QUtil::string_to_ll` / `QUtil::string_to_int`
are not in `QPDF_json.cc`; they parse a decimal integer with optional sign.
In the reactor they are only applied to `\d+` regex captures and to numbers
already accepted as integers. -/
def string_to_ll : List Char → Int
  | '-' :: rest => - Int.ofNat (digitsToNat rest 0)
  | '+' :: rest => Int.ofNat (digitsToNat rest 0)
  | l => Int.ofNat (digitsToNat l 0)

/-- Modelled from the spec: `QUtil::is_long_long` is not in `QPDF_json.cc`;
per the spec, a number's textual form is classified as Integer when it
"parses as an arbitrarily-large signed integer" — an optional sign followed
by a nonempty digit sequence. -/
def is_long_long : List Char → Bool
  | '-' :: rest => digits1 rest
  | '+' :: rest => digits1 rest
  | l => digits1 l

/-- Numeric value of a hex digit. -/
def hexVal (c : Char) : Nat :=
  if c.isDigit then c.toNat - '0'.toNat
  else if 'a' ≤ c && c ≤ 'f' then c.toNat - 'a'.toNat + 10
  else if 'A' ≤ c && c ≤ 'F' then c.toNat - 'A'.toNat + 10
  else 0

/-- Modelled from the spec: `QUtil::hex_decode` is not in `QPDF_json.cc`;
per the spec the remainder of a `b:` string is "an even-length hex string
decoded to raw bytes". -/
def hex_decode : List Char → List Nat
  | a :: b :: rest => (hexVal a * 16 + hexVal b) :: hex_decode rest
  | _ => []

/-! ### The reactor -/

/-- Model of `QPDF::JSONReactor`'s mutable state.  The C++ stacks use `push_back` /
`back()` / `pop_back` (top at the end); we keep the top at the head of the
Lean lists.  `pdf` bundles the parts of the `QPDF` the reactor mutates. -/
structure Reactor where
  pdf : PDFState
  must_be_complete : Bool
  errors : Bool
  parse_error : Bool
  saw_qpdf : Bool
  saw_objects : Bool
  saw_pdf_version : Bool
  saw_trailer : Bool
  state : State
  next_state : State
  state_stack : List State
  cur_object : String
  saw_value : Bool
  saw_stream : Bool
  saw_dict : Bool
  saw_data : Bool
  saw_datafile : Bool
  object_stack : List Handle
  reserved : List ObjGen
deriving DecidableEq, Repr

/-- The constructor `JSONReactor(pdf, is, must_be_complete)`: all flags
false, `state = st_initial`, `next_state = st_top`, and `st_initial` pushed
onto the state stack. -/
def initReactor (pdf : PDFState) (mbc : Bool) : Reactor :=
  { pdf := pdf
    must_be_complete := mbc
    errors := false
    parse_error := false
    saw_qpdf := false
    saw_objects := false
    saw_pdf_version := false
    saw_trailer := false
    state := st_initial
    next_state := st_top
    state_stack := [st_initial]
    cur_object := ""
    saw_value := false
    saw_stream := false
    saw_dict := false
    saw_data := false
    saw_datafile := false
    object_stack := []
    reserved := [] }

/-- Model of `JSONReactor::error`: set the `errors` flag and record a warning on the
document (`QPDF::warn` with the offset and message). -/
def Reactor.error (r : Reactor) (offset : Nat) (msg : String) : Reactor :=
  { r with errors := true, pdf := r.pdf.warn offset msg }

/-- Model of `JSONReactor::anyErrors`. -/
def Reactor.anyErrors (r : Reactor) : Bool :=
  r.errors

/-- Model of `JSONReactor::containerStart`: push the current state, switch to the
precomputed next state. -/
def Reactor.containerStart (r : Reactor) : Reactor :=
  { r with state_stack := r.state :: r.state_stack, state := r.next_state }

/-- Model of `JSONReactor::dictionaryStart`. -/
def Reactor.dictionaryStart (r : Reactor) : Reactor :=
  r.containerStart

/-- Model of `JSONReactor::arrayStart`: a top-level array is a fatal structural
error (`throw std::runtime_error`), carried as `Except.error` together with
the document state at the throw (no warning is recorded). -/
def Reactor.arrayStart (r : Reactor) : Except (String × PDFState) Reactor :=
  let r := r.containerStart
  if r.state = st_top then
    Except.error ("QPDF JSON must be a dictionary", r.pdf)
  else
    Except.ok r

/-- Model of `JSONReactor::topLevelScalar`: always a fatal structural error. -/
def Reactor.topLevelScalar (r : Reactor) : Except (String × PDFState) Reactor :=
  Except.error ("QPDF JSON must be a dictionary", r.pdf)

/-- Model of `JSONReactor::reserveObject`: parse the two captures, reserve the ObjGen
if not yet present, and remember newly reserved ObjGens. -/
def Reactor.reserveObject (r : Reactor) (obj gen : List Char) :
    Handle × Reactor :=
  let og : ObjGen := ⟨string_to_ll obj, string_to_ll gen⟩
  let oh := (r.pdf.reserveObjectIfNotExists og).1
  let pdf := (r.pdf.reserveObjectIfNotExists og).2
  if pdf.isReserved oh then
    (oh,
      { r with
        pdf := pdf
        reserved := if og ∈ r.reserved then r.reserved else og :: r.reserved })
  else
    (oh, { r with pdf := pdf })

/-- Model of `JSONReactor::replaceObject`: drop the ObjGen from the reservation set
and replace the table entry with the replacement. -/
def Reactor.replaceObject (r : Reactor) (to_replace replacement : Handle) :
    Reactor :=
  let og := to_replace.getObjGen
  { r with
    reserved := r.reserved.filter (fun x => x ≠ og)
    pdf := r.pdf.replaceObject og replacement }

/-- Model of `JSONReactor::nestedState`: enter `next` when the value is a dictionary;
otherwise record a recoverable error, enter `st_ignore`, and set
`parse_error`. -/
def Reactor.nestedState (r : Reactor) (key : String) (value : JSON)
    (next : State) : Reactor :=
  if value.isDictionary then
    { r with next_state := next }
  else
    let r := r.error value.start ("\"" ++ key ++ "\" must be a dictionary")
    { r with next_state := st_ignore, parse_error := true }

/-- Model of `JSONReactor::makeObject`: build one graph node from one JSON value.
Containers are created empty and pushed on the object stack (their members
arrive through later events); numbers are classified Integer/Real; strings
are matched, in order, against the indirect-reference, `u:`, `b:`, and name
patterns, anything else being a recoverable error yielding null.  All cases
of `JSONVal` produce an initialized handle, so the source's
"didn't initialize the object" throw is unreachable here.
`setObjectDescription` is diagnostic-only and not modelled. -/
def mkDirect (r : Reactor) (o : QObj) : Handle × Reactor :=
  ((r.pdf.alloc o).1, { r with pdf := (r.pdf.alloc o).2 })

def Reactor.makeObject (r : Reactor) (value : JSON) : Handle × Reactor :=
  match value.val with
  | jdict =>
      let h := (r.pdf.alloc (QObj.dict [])).1
      (h, { r with pdf := (r.pdf.alloc (QObj.dict [])).2,
                   object_stack := h :: r.object_stack })
  | jarray =>
      let h := (r.pdf.alloc (QObj.array [])).1
      (h, { r with pdf := (r.pdf.alloc (QObj.array [])).2,
                   object_stack := h :: r.object_stack })
  | jnull => mkDirect r QObj.null
  | jbool b => mkDirect r (QObj.bool b)
  | jnumber s =>
      if is_long_long s.data then
        mkDirect r (QObj.integer (string_to_ll s.data))
      else
        mkDirect r (QObj.real s)
  | jstring s =>
      match indirect_obj_re s.data with
      | some (a, b) => r.reserveObject a b
      | none =>
          match unicode_re s.data with
          | some rest => mkDirect r (QObj.uString (String.mk rest))
          | none =>
              match binary_re s.data with
              | some hx => mkDirect r (QObj.string (hex_decode hx))
              | none =>
                  if name_re s.data then
                    mkDirect r (QObj.name s)
                  else
                    mkDirect (r.error value.start "unrecognized string value")
                      QObj.null

/-- Model of `JSONReactor::containerEnd`: pop the state stack and run the closing
validation of the state being exited.  (Popping an empty stack would be
undefined behavior on the C++ `std::vector`; it is unreachable because
`st_initial` is pushed at construction, so the `[]` case returns `r`
unchanged.) -/
def Reactor.containerEnd (r : Reactor) (value : JSON) : Reactor :=
  match r.state_stack with
  | [] => r
  | s :: rest =>
    let r := { r with state := s, state_stack := rest }
    if r.state = st_initial then
      if !r.saw_qpdf then
        r.error 0 "\"qpdf\" object was not seen"
      else
        let r :=
          if r.must_be_complete && !r.saw_pdf_version then
            r.error 0 "\"qpdf-v2.pdfversion\" was not seen"
          else r
        if !r.saw_objects then
          r.error 0 "\"qpdf-v2.objects\" was not seen"
        else if r.must_be_complete && !r.saw_trailer then
          r.error 0 "\"qpdf-v2.objects.trailer\" was not seen"
        else r
    else if r.state = st_objects then
      let r :=
        if r.parse_error then
          r
        else if r.cur_object = "trailer" then
          if !r.saw_value then
            r.error value.start "\"trailer\" is missing \"value\""
          else r
        else if r.saw_value = r.saw_stream then
          r.error value.start
            "object must have exactly one of \"value\" or \"stream\""
        else r
      { r with
        object_stack := []
        cur_object := ""
        saw_dict := false
        saw_data := false
        saw_datafile := false
        saw_value := false
        saw_stream := false }
    else if r.state = st_object_top then
      if r.saw_stream then
        let r :=
          if !r.saw_dict then
            r.error value.start "\"stream\" is missing \"dict\""
          else r
        if r.must_be_complete then
          if r.saw_data = r.saw_datafile then
            r.error value.start
              "\"stream\" must have exactly one of \"data\" or \"datafile\""
          else r
        else if r.saw_data && r.saw_datafile then
          r.error value.start
            "\"stream\" may at most one of \"data\" or \"datafile\""
        else r
      else r
    else if r.state = st_stream ∨ r.state = st_object then
      if !r.parse_error then { r with object_stack := r.object_stack.tail }
      else r
    else if r.state = st_qpdf then
      let pdf := r.reserved.foldl PDFState.replaceWithNull r.pdf
      { r with pdf := pdf, reserved := [] }
    else r

/-- Model of `JSONReactor::dictionaryItem`: process one key/value pair in the current
state.  The source's `throw std::logic_error` paths (empty object stack in
`st_object_top` / `st_stream`, and the unknown-state fallthrough, which here
can only be `st_initial`) become `Except.error`. -/
def Reactor.dictionaryItem (r : Reactor) (key : String) (value : JSON) :
    Except (String × PDFState) Reactor :=
  if r.state = st_ignore then
    Except.ok r
  else if r.state = st_top then
    if key = "qpdf-v2" then
      Except.ok (Reactor.nestedState { r with saw_qpdf := true } key value st_qpdf)
    else
      -- ignore all other top-level fields
      Except.ok { r with next_state := st_ignore }
  else if r.state = st_qpdf then
    if key = "pdfversion" then
      let r := { r with saw_pdf_version := true }
      match value.getString with
      | some v =>
          if pdf_version_re v.data then
            Except.ok { r with pdf := { r.pdf with pdf_version := v } }
          else
            Except.ok (r.error value.start "invalid PDF version (must be x.y)")
      | none =>
          Except.ok (r.error value.start "invalid PDF version (must be x.y)")
    else if key = "objects" then
      Except.ok (Reactor.nestedState { r with saw_objects := true } key value st_objects)
    else
      -- ignore unknown second-level keys (e.g. "maxobjectid")
      Except.ok { r with next_state := st_ignore }
  else if r.state = st_objects then
    if key = "trailer" then
      let r := Reactor.nestedState { r with saw_trailer := true } key value st_trailer
      Except.ok { r with cur_object := "trailer" }
    else
      match obj_key_re key.data with
      | some (a, b) =>
          let (oh, r) := r.reserveObject a b
          let r := { r with object_stack := oh :: r.object_stack }
          let r := r.nestedState key value st_object_top
          Except.ok { r with cur_object := key }
      | none =>
          let r := r.error value.start
            "object key should be \"trailer\" or \"obj:n n R\""
          Except.ok { r with next_state := st_ignore, parse_error := true }
  else if r.state = st_object_top then
    match r.object_stack with
    | [] => Except.error ("no object on stack in st_object_top", r.pdf)
    | tos :: _ =>
      if key = "value" then
        -- Don't use nestedState since this can have any type.
        let r0 := { r with saw_value := true, next_state := st_object }
        let replacement := (r0.makeObject value).1
        let r1 := Reactor.replaceObject (r0.makeObject value).2 tos replacement
        if replacement.isInitialized then
          Except.ok { r1 with object_stack := replacement :: r1.object_stack.tail }
        else
          Except.ok r1
      else if key = "stream" then
        let r := { r with saw_stream := true }
        let r := r.nestedState key value st_stream
        if r.pdf.isStream tos then
          -- reusing the existing stream object; replacement stays
          -- uninitialized, so the stack is unchanged
          Except.ok r
        else
          let replacement :=
            (r.pdf.reserveStream ⟨tos.getObjectID, tos.getGeneration⟩).1
          let r1 := Reactor.replaceObject
            { r with pdf := (r.pdf.reserveStream
                ⟨tos.getObjectID, tos.getGeneration⟩).2 }
            tos replacement
          if replacement.isInitialized then
            Except.ok { r1 with object_stack := replacement :: r1.object_stack.tail }
          else
            Except.ok r1
      else
        -- ignore unknown keys for forward compatibility
        Except.ok { r with next_state := st_ignore }
  else if r.state = st_trailer then
    if key = "value" then
      let r0 := Reactor.nestedState { r with saw_value := true }
        "trailer.value" value st_object
      let t := (r0.makeObject value).1
      let r1 := (r0.makeObject value).2
      Except.ok { r1 with pdf := { r1.pdf with trailer := t } }
    else if key = "stream" then
      -- no need to set saw_stream since there is already an error
      let r := r.error value.start "the trailer may not be a stream"
      Except.ok { r with next_state := st_ignore, parse_error := true }
    else
      Except.ok { r with next_state := st_ignore }
  else if r.state = st_stream then
    match r.object_stack with
    | [] => Except.error ("no object on stack in st_stream", r.pdf)
    | tos :: _ =>
      if !r.pdf.isStream tos then
        let r := r.error value.start "this object is not a stream"
        Except.ok { r with parse_error := true }
      else if key = "dict" then
        let r0 := Reactor.nestedState { r with saw_dict := true }
          "stream.dict" value st_object
        let dict := (r0.makeObject value).1
        let r1 := (r0.makeObject value).2
        if r1.pdf.isDictionaryObj dict then
          Except.ok { r1 with pdf := r1.pdf.replaceDict tos dict }
        else
          -- an error had already been given by nestedState
          Except.ok { r1 with parse_error := true }
      else if key = "data" then
        let r := { r with saw_data := true }
        match value.getString with
        | none =>
            Except.ok (r.error value.start "\"stream.data\" must be a string")
        | some _ =>
            -- the range includes the quotes; size_t arithmetic, mod 2^64
            let start := (value.start + 1) % 2 ^ 64
            let fin := (value.jend + (2 ^ 64 - 1)) % 2 ^ 64
            if fin < start then
              Except.error ("QPDF_json: JSON string length < 0", r.pdf)
            else
              Except.ok
                { r with
                  pdf := r.pdf.replaceStreamData tos
                    (StreamData.inlineRange start fin) }
      else if key = "datafile" then
        let r := { r with saw_datafile := true }
        match value.getString with
        | some filename =>
            Except.ok
              { r with
                pdf := r.pdf.replaceStreamData tos (StreamData.file filename) }
        | none =>
            Except.ok (r.error value.start
              "\"stream.datafile\" must be a string containing a file name")
      else
        -- ignore unknown keys for forward compatibility
        Except.ok { r with next_state := st_ignore }
  else if r.state = st_object then
    if !r.parse_error then
      match r.object_stack with
      | [] => Except.ok r   -- back() on an empty vector: unreachable
      | dict0 :: _ =>
        let dictH := if r.pdf.isStream dict0 then r.pdf.getDictOf dict0 else dict0
        let v := (r.makeObject value).1
        let r1 := (r.makeObject value).2
        Except.ok { r1 with pdf := r1.pdf.replaceKey dictH key v }
    else
      Except.ok r
  else
    Except.error ("QPDF_json: unknown state", r.pdf)

/-- Model of `JSONReactor::arrayItem`: only `st_object` does anything, and only when
no parse error has occurred. -/
def Reactor.arrayItem (r : Reactor) (value : JSON) : Reactor :=
  if r.state = st_object then
    if !r.parse_error then
      match r.object_stack with
      | [] => r   -- back() on an empty vector: unreachable
      | tos :: _ =>
        let v := (r.makeObject value).1
        let r1 := (r.makeObject value).2
        { r1 with pdf := r1.pdf.appendItem tos v }
    else r
  else r

/-! ### Driving the reactor -/

/-- One structural parse event, as delivered by `JSON::parse` to the
reactor in document order. -/
inductive Event where
  | dictionaryStart
  | arrayStart
  | containerEnd (value : JSON)
  | dictionaryItem (key : String) (value : JSON)
  | arrayItem (value : JSON)
  | topLevelScalar
deriving DecidableEq, Repr

/-- Dispatch one event to the reactor. -/
def Reactor.step (r : Reactor) (e : Event) : Except (String × PDFState) Reactor :=
  match e with
  | Event.dictionaryStart => Except.ok r.dictionaryStart
  | Event.arrayStart => r.arrayStart
  | Event.containerEnd v => Except.ok (r.containerEnd v)
  | Event.dictionaryItem k v => r.dictionaryItem k v
  | Event.arrayItem v => Except.ok (r.arrayItem v)
  | Event.topLevelScalar => r.topLevelScalar

/-- Run the reactor over a whole event sequence, stopping at the first
fatal error (thrown exception). -/
def runEvents : List Event → Reactor → Except (String × PDFState) Reactor
  | [], r => Except.ok r
  | e :: es, r =>
      match r.step e with
      | Except.ok r2 => runEvents es r2
      | Except.error x => Except.error x

/-- Model of `QPDF::importJSON`: parse (deliver all events), prefixing any fatal
error with the input's name; afterwards, if the reactor recorded any
recoverable error, fail with "errors found in JSON". -/
def importJSON (name : String) (events : List Event) (must_be_complete : Bool)
    (pdf : PDFState) : Except String PDFState :=
  match runEvents events (initReactor pdf must_be_complete) with
  | Except.error (msg, _) => Except.error (name ++ ": " ++ msg)
  | Except.ok r =>
      if r.anyErrors then Except.error (name ++ ": errors found in JSON")
      else Except.ok r.pdf

/-! ### The export writer (`QPDF::writeJSON`) -/

/-- Modelled from the spec: the export-side view of the document used by
`QPDF::writeJSON`.  `getAllObjects`, `getObjectCount`, `getPDFVersion` and
`getTrailer` are not part of `QPDF_json.cc`; per the spec the writer "walks
the Object Graph Table in ascending object-number order" and emits
`maxobjectid` "reflecting the full graph".  Each element of `objects` is one
object of the graph: its ObjGen and whether it is a stream. -/
structure WObj where
  obj : Int
  gen : Int
  isStr : Bool
deriving DecidableEq, Repr

/-- Model of `obj.unparse()` for an indirect object: `"<id> <gen> R"`. -/
def WObj.unparse (w : WObj) : String :=
  toString w.obj ++ " " ++ toString w.gen ++ " R"

/-- Modelled from the spec: the pieces of the `QPDF` that `writeJSON`
reads (see `WObj`). -/
structure ExportPDF where
  objects : List WObj
  objectCount : Int
  version : String
deriving DecidableEq, Repr

/-- Whether an emitted entry was written by `writeJSONStream` or by
`writeJSONObject`. -/
inductive EntryKind where
  | streamEntry
  | objectEntry
deriving DecidableEq, Repr

/-- The output of `writeJSON` as far as structure goes: the `pdfversion`
and `maxobjectid` members, and the members of the `objects` dictionary in
emission order. -/
structure WriteOutput where
  pdfversion : String
  maxobjectid : Int
  entries : List (String × EntryKind)
deriving DecidableEq, Repr

/-- The body of `writeJSON`'s object loop: emit the object (through
`writeJSONStream` or `writeJSONObject`) when `all_objects` or its key is in
the selection. -/
def writeEntryStep (all_objects : Bool) (wanted_objects : List String)
    (acc : List (String × EntryKind)) (o : WObj) :
    List (String × EntryKind) :=
  if all_objects || wanted_objects.contains ("obj:" ++ o.unparse) then
    acc ++ [("obj:" ++ o.unparse,
      if o.isStr then EntryKind.streamEntry else EntryKind.objectEntry)]
  else acc

/-- Model of `QPDF::writeJSON`: reject any version other than 2; then walk the
objects, emitting those selected by `wanted_objects` (all of them when the
set is empty), and finally the trailer unless a non-empty selection omits
the key "trailer". -/
def writeJSON (version : Int) (pdf : ExportPDF)
    (wanted_objects : List String) : Except String WriteOutput :=
  if version ≠ 2 then
    Except.error "QPDF::writeJSON: only version 2 is supported"
  else
    let all_objects := wanted_objects.isEmpty
    let entries := pdf.objects.foldl
      (writeEntryStep all_objects wanted_objects) []
    let entries :=
      if all_objects || wanted_objects.contains "trailer" then
        entries ++ [("trailer", EntryKind.objectEntry)]
      else entries
    Except.ok
      { pdfversion := pdf.version
        maxobjectid := pdf.objectCount
        entries := entries }

/-! ## Basic lemmas about the embedding -/

@[simp]
lemma warn_warns (p : PDFState) (off : Nat) (msg : String) :
    (p.warn off msg).warns = p.warns ++ [(off, msg)] := rfl

@[simp]
lemma error_pdf_warns (r : Reactor) (off : Nat) (msg : String) :
    (r.error off msg).pdf.warns = r.pdf.warns ++ [(off, msg)] := rfl

@[simp]
lemma error_errors (r : Reactor) (off : Nat) (msg : String) :
    (r.error off msg).errors = true := rfl

@[simp]
lemma error_parse_error (r : Reactor) (off : Nat) (msg : String) :
    (r.error off msg).parse_error = r.parse_error := rfl

@[simp]
lemma error_must_be_complete (r : Reactor) (off : Nat) (msg : String) :
    (r.error off msg).must_be_complete = r.must_be_complete := rfl

@[simp]
lemma error_saw_qpdf (r : Reactor) (off : Nat) (msg : String) :
    (r.error off msg).saw_qpdf = r.saw_qpdf := rfl

@[simp]
lemma error_saw_objects (r : Reactor) (off : Nat) (msg : String) :
    (r.error off msg).saw_objects = r.saw_objects := rfl

@[simp]
lemma error_saw_pdf_version (r : Reactor) (off : Nat) (msg : String) :
    (r.error off msg).saw_pdf_version = r.saw_pdf_version := rfl

@[simp]
lemma error_saw_trailer (r : Reactor) (off : Nat) (msg : String) :
    (r.error off msg).saw_trailer = r.saw_trailer := rfl

@[simp]
lemma error_state (r : Reactor) (off : Nat) (msg : String) :
    (r.error off msg).state = r.state := rfl

@[simp]
lemma error_next_state (r : Reactor) (off : Nat) (msg : String) :
    (r.error off msg).next_state = r.next_state := rfl

@[simp]
lemma error_state_stack (r : Reactor) (off : Nat) (msg : String) :
    (r.error off msg).state_stack = r.state_stack := rfl

@[simp]
lemma error_cur_object (r : Reactor) (off : Nat) (msg : String) :
    (r.error off msg).cur_object = r.cur_object := rfl

@[simp]
lemma error_saw_value (r : Reactor) (off : Nat) (msg : String) :
    (r.error off msg).saw_value = r.saw_value := rfl

@[simp]
lemma error_saw_stream (r : Reactor) (off : Nat) (msg : String) :
    (r.error off msg).saw_stream = r.saw_stream := rfl

@[simp]
lemma error_saw_dict (r : Reactor) (off : Nat) (msg : String) :
    (r.error off msg).saw_dict = r.saw_dict := rfl

@[simp]
lemma error_saw_data (r : Reactor) (off : Nat) (msg : String) :
    (r.error off msg).saw_data = r.saw_data := rfl

@[simp]
lemma error_saw_datafile (r : Reactor) (off : Nat) (msg : String) :
    (r.error off msg).saw_datafile = r.saw_datafile := rfl

@[simp]
lemma error_object_stack (r : Reactor) (off : Nat) (msg : String) :
    (r.error off msg).object_stack = r.object_stack := rfl

@[simp]
lemma error_reserved (r : Reactor) (off : Nat) (msg : String) :
    (r.error off msg).reserved = r.reserved := rfl

@[simp]
lemma error_pdf_arena (r : Reactor) (off : Nat) (msg : String) :
    (r.error off msg).pdf.arena = r.pdf.arena := rfl

@[simp]
lemma error_pdf_table (r : Reactor) (off : Nat) (msg : String) :
    (r.error off msg).pdf.table = r.pdf.table := rfl

@[simp]
lemma error_pdf_version_field (r : Reactor) (off : Nat) (msg : String) :
    (r.error off msg).pdf.pdf_version = r.pdf.pdf_version := rfl

@[simp]
lemma error_pdf_trailer (r : Reactor) (off : Nat) (msg : String) :
    (r.error off msg).pdf.trailer = r.pdf.trailer := rfl

@[simp]
lemma alloc_warns (p : PDFState) (o : QObj) :
    (p.alloc o).2.warns = p.warns := rfl

@[simp]
lemma setObj_warns (p : PDFState) (h : Handle) (o : QObj) :
    (p.setObj h o).warns = p.warns := by
  unfold PDFState.setObj
  split <;> rfl

@[simp]
lemma replaceObject_warns (p : PDFState) (og : ObjGen) (h : Handle) :
    (p.replaceObject og h).warns = p.warns := by
  unfold PDFState.replaceObject
  split <;> rfl

@[simp]
lemma reserveObjectIfNotExists_warns (p : PDFState) (og : ObjGen) :
    (p.reserveObjectIfNotExists og).2.warns = p.warns := by
  unfold PDFState.reserveObjectIfNotExists
  split <;> rfl

@[simp]
lemma reserveStream_warns (p : PDFState) (og : ObjGen) :
    (p.reserveStream og).2.warns = p.warns := rfl

@[simp]
lemma replaceDict_warns (p : PDFState) (h d : Handle) :
    (p.replaceDict h d).warns = p.warns := by
  unfold PDFState.replaceDict
  split <;> simp

@[simp]
lemma replaceStreamData_warns (p : PDFState) (h : Handle) (d : StreamData) :
    (p.replaceStreamData h d).warns = p.warns := by
  unfold PDFState.replaceStreamData
  split <;> simp

@[simp]
lemma replaceKey_warns (p : PDFState) (h : Handle) (k : String) (v : Handle) :
    (p.replaceKey h k v).warns = p.warns := by
  unfold PDFState.replaceKey
  split <;> simp

@[simp]
lemma appendItem_warns (p : PDFState) (h v : Handle) :
    (p.appendItem h v).warns = p.warns := by
  unfold PDFState.appendItem
  split <;> simp

@[simp]
lemma reserveObject_warns (r : Reactor) (a b : List Char) :
    (r.reserveObject a b).2.pdf.warns = r.pdf.warns := by
  unfold Reactor.reserveObject
  dsimp only
  split <;> simp

@[simp]
lemma reserveObject_errors (r : Reactor) (a b : List Char) :
    (r.reserveObject a b).2.errors = r.errors := by
  unfold Reactor.reserveObject
  dsimp only
  split <;> simp

@[simp]
lemma reserveObject_parse_error (r : Reactor) (a b : List Char) :
    (r.reserveObject a b).2.parse_error = r.parse_error := by
  unfold Reactor.reserveObject
  dsimp only
  split <;> simp

@[simp]
lemma reactor_replaceObject_warns (r : Reactor) (a b : Handle) :
    (r.replaceObject a b).pdf.warns = r.pdf.warns := by
  unfold Reactor.replaceObject
  simp

@[simp]
lemma reactor_replaceObject_errors (r : Reactor) (a b : Handle) :
    (r.replaceObject a b).errors = r.errors := rfl

@[simp]
lemma reactor_replaceObject_parse_error (r : Reactor) (a b : Handle) :
    (r.replaceObject a b).parse_error = r.parse_error := rfl

@[simp]
lemma mkDirect_pdf_warns (r : Reactor) (o : QObj) :
    (mkDirect r o).2.pdf.warns = r.pdf.warns := rfl

@[simp]
lemma mkDirect_errors (r : Reactor) (o : QObj) :
    (mkDirect r o).2.errors = r.errors := rfl

@[simp]
lemma mkDirect_parse_error (r : Reactor) (o : QObj) :
    (mkDirect r o).2.parse_error = r.parse_error := rfl

lemma makeObject_errors_warns (r : Reactor) (v : JSON) :
    ((r.makeObject v).2.errors = r.errors ∧
      (r.makeObject v).2.pdf.warns = r.pdf.warns) ∨
    ((r.makeObject v).2.errors = true ∧
      (r.makeObject v).2.pdf.warns =
        r.pdf.warns ++ [(v.start, "unrecognized string value")]) := by
  unfold Reactor.makeObject
  repeat' split
  all_goals simp

@[simp]
lemma makeObject_parse_error (r : Reactor) (v : JSON) :
    (r.makeObject v).2.parse_error = r.parse_error := by
  unfold Reactor.makeObject
  repeat' split
  all_goals simp

/-! ## Concrete fixtures used by witnesses and counterexamples -/

/-- An empty document state (no objects, no warnings). -/
def pdf0 : PDFState :=
  { arena := [], table := [], pdf_version := "", trailer := Handle.uninitialized,
    warns := [] }

/-- Shorthand for a JSON value with offsets. -/
def jv (v : JSONVal) (s e : Nat) : JSON := ⟨v, s, e⟩

/-! ## C2 -/

/-- C2: for every numeric scalar consumed by the builder, the produced node
is an Integer exactly when the scalar's textual form parses as an
arbitrarily-large signed integer (`is_long_long`, modelled from the spec),
and otherwise a Real node carrying the original textual form unchanged. -/
theorem C2_number_classification (r : Reactor) (s : String) (st en : Nat) :
    (Reactor.makeObject r ⟨jnumber s, st, en⟩).2.pdf.resolve
        (Reactor.makeObject r ⟨jnumber s, st, en⟩).1 =
      some (if is_long_long s.data then QObj.integer (string_to_ll s.data)
            else QObj.real s) := by
  by_cases h : is_long_long s.data = true <;>
    simp [Reactor.makeObject, mkDirect, PDFState.alloc, PDFState.resolve, h]

/-! ## C7 -/

/-- C7: at the document root (`next_state = st_top`, as established by the
reactor's constructor), an array start or a bare scalar raises the fatal
"QPDF JSON must be a dictionary" error immediately, leaving the document
state — in particular its recoverable-error list — untouched. -/
theorem C7_root_must_be_dictionary (r : Reactor) (p0 : PDFState) (mbc : Bool)
    (h : r.next_state = st_top) :
    (initReactor p0 mbc).next_state = st_top ∧
    r.arrayStart = Except.error ("QPDF JSON must be a dictionary", r.pdf) ∧
    r.topLevelScalar = Except.error ("QPDF JSON must be a dictionary", r.pdf) := by
  refine ⟨rfl, ?_, rfl⟩
  unfold Reactor.arrayStart Reactor.containerStart
  simp [h]

/-- Witness for C7 at a concrete reactor: the initial reactor of an import
into an empty document. -/
theorem C7_root_must_be_dictionary_witness :
    (initReactor pdf0 true).arrayStart =
      Except.error ("QPDF JSON must be a dictionary", pdf0) ∧
    (initReactor pdf0 true).topLevelScalar =
      Except.error ("QPDF JSON must be a dictionary", pdf0) := by
  have h := C7_root_must_be_dictionary (initReactor pdf0 true) pdf0 true rfl
  exact ⟨h.2.1, h.2.2⟩

/-! ## C6 -/

/-- C6: closing a stream object entry (`containerEnd` exiting
`st_object_top` with `saw_stream`) appends, besides the independent
missing-`dict` error, the `data`/`datafile` cardinality error exactly when
both or neither was seen under full-completeness mode, and exactly when both
were seen under partial mode. -/
theorem C6_stream_data_cardinality (r : Reactor) (v : JSON) (rest : List State)
    (hs : r.state_stack = st_object_top :: rest) (hstr : r.saw_stream = true) :
    (r.containerEnd v).pdf.warns =
      (r.pdf.warns ++
        (if r.saw_dict then []
         else [(v.start, "\"stream\" is missing \"dict\"")])) ++
      (if r.must_be_complete then
        (if r.saw_data = r.saw_datafile then
          [(v.start,
            "\"stream\" must have exactly one of \"data\" or \"datafile\"")]
         else [])
       else
        (if r.saw_data && r.saw_datafile then
          [(v.start, "\"stream\" may at most one of \"data\" or \"datafile\"")]
         else [])) := by
  unfold Reactor.containerEnd
  rw [hs]
  dsimp only
  simp only [hstr]
  repeat' split
  all_goals simp_all

/-- Witness for C6: a partial-mode entry that saw `stream`, `dict`, `data`
and `datafile` gets exactly the both-seen cardinality error. -/
theorem C6_stream_data_cardinality_witness :
    (Reactor.containerEnd
        { initReactor pdf0 false with
          state := st_stream
          state_stack := [st_object_top, st_objects, st_qpdf, st_top, st_initial]
          saw_stream := true, saw_dict := true, saw_data := true
          saw_datafile := true }
        (jv jdict 46 67)).pdf.warns =
      [(46, "\"stream\" may at most one of \"data\" or \"datafile\"")] := by
  have h := C6_stream_data_cardinality
    { initReactor pdf0 false with
      state := st_stream
      state_stack := [st_object_top, st_objects, st_qpdf, st_top, st_initial]
      saw_stream := true, saw_dict := true, saw_data := true
      saw_datafile := true }
    (jv jdict 46 67) [st_objects, st_qpdf, st_top, st_initial] rfl rfl
  simpa using h

/-! ## C1 -/

/-- The event stream of
`{"qpdf-v2":{"objects":{"bad key":{},"obj:2 0 R":{}}}}` in update mode:
the malformed key sets `parse_error`, after which the empty `obj:2 0 R`
entry is closed without validation. -/
def c1events : List Event :=
  [Event.dictionaryStart,
   Event.dictionaryItem "qpdf-v2" (jv jdict 11 52),
   Event.dictionaryStart,
   Event.dictionaryItem "objects" (jv jdict 22 51),
   Event.dictionaryStart,
   Event.dictionaryItem "bad key" (jv jdict 33 35),
   Event.dictionaryStart,
   Event.containerEnd (jv jdict 33 35),
   Event.dictionaryItem "obj:2 0 R" (jv jdict 48 50),
   Event.dictionaryStart]

/-- The reactor state reached after `c1events` (just before the
`obj:2 0 R` entry container closes). -/
def c1r : Reactor :=
  match runEvents c1events (initReactor pdf0 false) with
  | Except.ok r => r
  | Except.error _ => initReactor pdf0 false

/-- C1 counterexample: a concrete import reaches, through a real event run,
a non-trailer object entry (`obj:2 0 R`) that saw neither "value" nor
"stream"; closing it reports no recoverable error at all (the already-set
`parse_error` flag skips the entry-close validation), contradicting the
claim that exactly one error is reported for such an entry. -/
theorem C1_counterexample :
    runEvents c1events (initReactor pdf0 false) = Except.ok c1r ∧
    c1r.state_stack.head? = some st_objects ∧
    c1r.cur_object = "obj:2 0 R" ∧
    c1r.saw_value = false ∧
    c1r.saw_stream = false ∧
    (c1r.containerEnd (jv jdict 48 50)).pdf.warns = c1r.pdf.warns := by
  refine ⟨rfl, ?_, ?_, ?_, ?_, ?_⟩ <;> decide

/-- C1 (amended): provided the reactor's `parse_error` flag is not set when
an object entry closes inside the objects container, a non-trailer entry
gets exactly one recoverable error when "value" and "stream" were both seen
or neither was, and none otherwise; the trailer entry gets exactly one
error exactly when "value" was not seen. -/
theorem C1_entry_close_validation (r : Reactor) (v : JSON) (rest : List State)
    (hs : r.state_stack = st_objects :: rest) (hp : r.parse_error = false) :
    (r.containerEnd v).pdf.warns = r.pdf.warns ++
      (if r.cur_object = "trailer" then
        (if r.saw_value then []
         else [(v.start, "\"trailer\" is missing \"value\"")])
       else if r.saw_value = r.saw_stream then
        [(v.start, "object must have exactly one of \"value\" or \"stream\"")]
       else []) := by
  unfold Reactor.containerEnd
  rw [hs]
  dsimp only
  simp only [hp]
  repeat' split
  all_goals simp_all

/-- Witness for C1 (amended): an entry that saw neither key, closed with no
parse error pending, reports exactly the one cardinality error. -/
theorem C1_entry_close_validation_witness :
    (Reactor.containerEnd
        { initReactor pdf0 true with
          state := st_object_top
          state_stack := [st_objects, st_qpdf, st_top, st_initial]
          cur_object := "obj:1 0 R" }
        (jv jdict 10 20)).pdf.warns =
      [(10, "object must have exactly one of \"value\" or \"stream\"")] := by
  have h := C1_entry_close_validation
    { initReactor pdf0 true with
      state := st_object_top
      state_stack := [st_objects, st_qpdf, st_top, st_initial]
      cur_object := "obj:1 0 R" }
    (jv jdict 10 20) [st_qpdf, st_top, st_initial] rfl rfl
  simpa using h

/-! ## C3 -/

/-- The event stream of
`{"qpdf-v2":{"objects":{"obj:4 0 R":{"stream":{"dict":{},"data":""}}}}}`
in update mode.  The `data` string occupies bytes 64..66 — the two quotes
only — so the byte range after excluding the delimiters is `[65, 65)`,
of length zero. -/
def c3events : List Event :=
  [Event.dictionaryStart,
   Event.dictionaryItem "qpdf-v2" (jv jdict 11 70),
   Event.dictionaryStart,
   Event.dictionaryItem "objects" (jv jdict 22 69),
   Event.dictionaryStart,
   Event.dictionaryItem "obj:4 0 R" (jv jdict 35 68),
   Event.dictionaryStart,
   Event.dictionaryItem "stream" (jv jdict 46 67),
   Event.dictionaryStart,
   Event.dictionaryItem "dict" (jv jdict 54 56),
   Event.dictionaryStart,
   Event.containerEnd (jv jdict 54 56),
   Event.dictionaryItem "data" (jv (jstring "") 64 66),
   Event.containerEnd (jv jdict 46 67),
   Event.containerEnd (jv jdict 35 68),
   Event.containerEnd (jv jdict 22 69),
   Event.containerEnd (jv jdict 11 70),
   Event.containerEnd (jv jdict 0 71)]

/-- The reactor state after the full `c3events` run. -/
def c3r : Reactor :=
  match runEvents c3events (initReactor pdf0 false) with
  | Except.ok r => r
  | Except.error _ => initReactor pdf0 false

/-- C3 counterexample: a stream `data` entry whose byte range has length
zero after excluding the string delimiters (`[65, 65)`) does NOT abort
the import: the whole document is consumed without a fatal error, the
zero-length inline range is installed on the stream, and the import call
succeeds.  The source only throws when the range length is negative
(`end < start`). -/
theorem C3_counterexample :
    runEvents c3events (initReactor pdf0 false) = Except.ok c3r ∧
    c3r.pdf.resolveOg ⟨4, 0⟩ =
      some (QObj.stream (Handle.direct 2) (StreamData.inlineRange 65 65)) ∧
    importJSON "in.json" c3events false pdf0 = Except.ok c3r.pdf := by
  refine ⟨rfl, ?_, rfl⟩
  decide

/-- C3 (amended): a stream `data` entry with a string value aborts with the
fatal "JSON string length < 0" logic error exactly when the byte range is of
negative length after excluding the delimiters — `end - 1 < start + 1` in
`size_t` arithmetic; a zero-length range is accepted. -/
theorem C3_stream_data_negative_range (r : Reactor) (tos : Handle)
    (rest : List Handle) (s : String) (st en : Nat)
    (h1 : r.state = st_stream) (h2 : r.object_stack = tos :: rest)
    (h3 : r.pdf.isStream tos = true) :
    (Reactor.dictionaryItem r "data" ⟨jstring s, st, en⟩ =
        Except.error ("QPDF_json: JSON string length < 0", r.pdf)) ↔
      (en + (2 ^ 64 - 1)) % 2 ^ 64 < (st + 1) % 2 ^ 64 := by
  unfold Reactor.dictionaryItem
  rw [h1, h2]
  rw [if_neg (by decide), if_neg (by decide), if_neg (by decide),
    if_neg (by decide), if_neg (by decide), if_neg (by decide), if_pos rfl]
  simp only [JSON.getString, h3]
  simp only [if_true]
  split <;> simp_all

/-- Witness for C3 (amended): a negative-length range does abort. -/
theorem C3_stream_data_negative_range_witness :
    Reactor.dictionaryItem
        { initReactor pdf0 false with
          state := st_stream
          state_stack := [st_object_top, st_objects, st_qpdf, st_top, st_initial]
          object_stack := [Handle.ind ⟨4, 0⟩]
          pdf := { pdf0 with
                   arena := [QObj.stream Handle.uninitialized StreamData.nodata]
                   table := [(⟨4, 0⟩, 0)] } }
        "data" ⟨jstring "x", 5, 3⟩ =
      Except.error ("QPDF_json: JSON string length < 0",
        { pdf0 with
          arena := [QObj.stream Handle.uninitialized StreamData.nodata]
          table := [(⟨4, 0⟩, 0)] }) := by
  exact (C3_stream_data_negative_range
    { initReactor pdf0 false with
      state := st_stream
      state_stack := [st_object_top, st_objects, st_qpdf, st_top, st_initial]
      object_stack := [Handle.ind ⟨4, 0⟩]
      pdf := { pdf0 with
               arena := [QObj.stream Handle.uninitialized StreamData.nodata]
               table := [(⟨4, 0⟩, 0)] } }
    (Handle.ind ⟨4, 0⟩) [] "x" 5 3 rfl rfl rfl).mpr (by decide)

/-! ## C4 -/

@[simp]
lemma replaceWithNull_warns (p : PDFState) (og : ObjGen) :
    (p.replaceWithNull og).warns = p.warns := by
  unfold PDFState.replaceWithNull
  simp

lemma replaceWithNull_resolveOg_self (p : PDFState) (og : ObjGen) :
    (p.replaceWithNull og).resolveOg og = some QObj.null := by
  unfold PDFState.replaceWithNull PDFState.alloc PDFState.replaceObject
    PDFState.indexOf PDFState.resolveOg
  simp [List.lookup, List.getElem?_concat_length]

lemma replaceWithNull_resolveOg_preserved (p : PDFState) (og og2 : ObjGen)
    (h : p.resolveOg og = some QObj.null) :
    (p.replaceWithNull og2).resolveOg og = some QObj.null := by
  by_cases he : og2 = og
  · subst he
    exact replaceWithNull_resolveOg_self p og2
  · unfold PDFState.resolveOg at h
    unfold PDFState.replaceWithNull PDFState.alloc PDFState.replaceObject
      PDFState.indexOf PDFState.resolveOg
    simp only [List.lookup, beq_eq_false_iff_ne.mpr (Ne.symm he)]
    rcases hl : List.lookup og p.table with _ | i
    · rw [hl] at h
      exact absurd h (by simp)
    · rw [hl] at h
      simp only [hl]
      dsimp only at h
      have hlt : i < p.arena.length := by
        by_contra hc
        push_neg at hc
        rw [List.get?_eq_getElem?, List.getElem?_eq_none hc] at h
        exact Option.noConfusion h
      rw [List.get?_eq_getElem?, List.getElem?_append_left hlt,
        ← List.get?_eq_getElem?]
      exact h

lemma foldl_replaceWithNull_preserved (l : List ObjGen) (p : PDFState)
    (og : ObjGen) (h : p.resolveOg og = some QObj.null) :
    (l.foldl PDFState.replaceWithNull p).resolveOg og = some QObj.null := by
  induction l generalizing p with
  | nil => simpa using h
  | cons a t ih => exact ih _ (replaceWithNull_resolveOg_preserved p og a h)

lemma foldl_replaceWithNull_mem (l : List ObjGen) (p : PDFState) (og : ObjGen)
    (h : og ∈ l) :
    (l.foldl PDFState.replaceWithNull p).resolveOg og = some QObj.null := by
  induction l generalizing p with
  | nil => cases h
  | cons a t ih =>
    rcases List.mem_cons.mp h with rfl | hm
    · exact foldl_replaceWithNull_preserved t _ og
        (replaceWithNull_resolveOg_self p og)
    · exact ih _ hm

lemma foldl_replaceWithNull_warns (l : List ObjGen) (p : PDFState) :
    (l.foldl PDFState.replaceWithNull p).warns = p.warns := by
  induction l generalizing p with
  | nil => rfl
  | cons a t ih => simpa using ih (p.replaceWithNull a)

/-- C4: when the container whose body was parsed in `st_qpdf` closes (the
spec's "exiting Qpdf"), every ObjGen still in the reservation set — i.e.
reserved by an indirect reference and never defined by a matching object
entry, which would have erased it via `replaceObject` — is replaced by the
null object, the reservation set is emptied, and no error is recorded. -/
theorem C4_reserved_resolved_to_null (r : Reactor) (v : JSON) (og : ObjGen)
    (rest : List State) (hs : r.state_stack = st_qpdf :: rest)
    (hog : og ∈ r.reserved) :
    (r.containerEnd v).pdf.resolveOg og = some QObj.null ∧
    (r.containerEnd v).reserved = [] ∧
    (r.containerEnd v).pdf.warns = r.pdf.warns := by
  unfold Reactor.containerEnd
  rw [hs]
  dsimp only
  rw [if_neg (by decide), if_neg (by decide), if_neg (by decide),
    if_neg (by decide), if_pos rfl]
  exact ⟨foldl_replaceWithNull_mem _ _ _ hog, rfl,
    foldl_replaceWithNull_warns _ _⟩

/-- Witness for C4: a reserved-but-never-defined object `2 0` becomes null
when the objects container closes back into `st_qpdf`. -/
theorem C4_reserved_resolved_to_null_witness :
    (Reactor.containerEnd
        { initReactor pdf0 true with
          state := st_objects
          state_stack := [st_qpdf, st_top, st_initial]
          reserved := [⟨2, 0⟩]
          pdf := { pdf0 with arena := [QObj.reserved], table := [(⟨2, 0⟩, 0)] } }
        (jv jdict 0 10)).pdf.resolveOg ⟨2, 0⟩ = some QObj.null := by
  exact (C4_reserved_resolved_to_null
    { initReactor pdf0 true with
      state := st_objects
      state_stack := [st_qpdf, st_top, st_initial]
      reserved := [⟨2, 0⟩]
      pdf := { pdf0 with arena := [QObj.reserved], table := [(⟨2, 0⟩, 0)] } }
    (jv jdict 0 10) ⟨2, 0⟩ [st_top, st_initial] rfl (by decide)).1

/-! ## C10 -/

/-- C10: a `pdfversion` key whose value is not a string matching
`digits.digits` records the invalid-version error, leaves the stored PDF
version unchanged, and still marks `pdfversion` as seen; consequently the
root-close check under full-completeness mode never adds the
"pdfversion was not seen" error once the flag is set. -/
theorem C10_bad_pdfversion (r : Reactor) (v : JSON)
    (h1 : r.state = st_qpdf)
    (h2 : (match v.getString with
           | some s => pdf_version_re s.data
           | none => false) = false) :
    (r.dictionaryItem "pdfversion" v =
      Except.ok (Reactor.error { r with saw_pdf_version := true }
        v.start "invalid PDF version (must be x.y)")) ∧
    (Reactor.error { r with saw_pdf_version := true }
        v.start "invalid PDF version (must be x.y)").pdf.pdf_version =
      r.pdf.pdf_version ∧
    (Reactor.error { r with saw_pdf_version := true }
        v.start "invalid PDF version (must be x.y)").saw_pdf_version = true ∧
    (∀ (r2 : Reactor) (v2 : JSON) (rest : List State),
      r2.state_stack = st_initial :: rest → r2.saw_pdf_version = true →
      (0, "\"qpdf-v2.pdfversion\" was not seen") ∉
        (r2.containerEnd v2).pdf.warns.drop r2.pdf.warns.length) := by
  refine ⟨?_, rfl, rfl, ?_⟩
  · unfold Reactor.dictionaryItem
    rw [h1]
    rw [if_neg (by decide), if_neg (by decide), if_pos rfl, if_pos rfl]
    rcases hv : v.getString with _ | s
    · rfl
    · rw [hv] at h2
      dsimp only at h2
      dsimp only
      rw [if_neg (by simp [h2])]
  · intro r2 v2 rest hs hv
    unfold Reactor.containerEnd
    rw [hs]
    dsimp only
    rw [if_pos rfl]
    simp only [hv]
    repeat' split
    all_goals simp_all [List.drop_left]

/-- Witness for C10: a junk `pdfversion` value on a document whose stored
version is `1.7`. -/
theorem C10_bad_pdfversion_witness :
    Reactor.dictionaryItem
        { initReactor { pdf0 with pdf_version := "1.7" } true with
          state := st_qpdf
          state_stack := [st_top, st_initial] }
        "pdfversion" (jv (jstring "junk") 25 31) =
      Except.ok (Reactor.error
        { { initReactor { pdf0 with pdf_version := "1.7" } true with
            state := st_qpdf
            state_stack := [st_top, st_initial] }
          with saw_pdf_version := true }
        25 "invalid PDF version (must be x.y)") := by
  exact (C10_bad_pdfversion
    { initReactor { pdf0 with pdf_version := "1.7" } true with
      state := st_qpdf
      state_stack := [st_top, st_initial] }
    (jv (jstring "junk") 25 31) rfl (by decide)).1

/-! ## C8 -/

lemma foldl_writeEntryStep (ao : Bool) (w : List String) (l : List WObj)
    (acc : List (String × EntryKind)) :
    l.foldl (writeEntryStep ao w) acc =
      acc ++ (l.filter
          (fun o => ao || w.contains ("obj:" ++ o.unparse))).map
        (fun o => ("obj:" ++ o.unparse,
          if o.isStr then EntryKind.streamEntry else EntryKind.objectEntry)) := by
  induction l generalizing acc with
  | nil => simp
  | cons a t ih =>
    rw [List.foldl_cons, writeEntryStep]
    by_cases hc : (ao || w.contains ("obj:" ++ a.unparse)) = true
    · rw [if_pos hc, ih, List.filter_cons_of_pos (by simpa using hc)]
      simp
    · rw [if_neg hc, ih, List.filter_cons_of_neg (by simpa using hc)]

lemma obj_key_ne_trailer (x : String) : ("obj:" ++ x) ≠ "trailer" := by
  intro h
  have h2 := congrArg String.data h
  rw [String.data_append] at h2
  simp at h2

lemma mem_objPart_keys (ao : Bool) (w : List String) (l : List WObj)
    (k : String) :
    (k ∈ ((l.filter (fun o => ao || w.contains ("obj:" ++ o.unparse))).map
        (fun o => ("obj:" ++ o.unparse,
          if o.isStr then EntryKind.streamEntry
          else EntryKind.objectEntry))).map Prod.fst) ↔
    ∃ o, o ∈ l ∧ "obj:" ++ o.unparse = k ∧
      (ao || w.contains ("obj:" ++ o.unparse)) = true := by
  rw [List.map_map]
  simp only [List.mem_map, List.mem_filter, Function.comp]
  constructor
  · rintro ⟨o, ⟨hol, hcond⟩, hk⟩
    exact ⟨o, hol, hk, hcond⟩
  · rintro ⟨o, hol, hk, hcond⟩
    exact ⟨o, ⟨hol, hcond⟩, hk⟩

lemma sel_cond_iff (w : List String) (k : String) :
    ((w.isEmpty || w.contains k) = true) ↔ (w = [] ∨ k ∈ w) := by
  rw [Bool.or_eq_true]
  constructor
  · rintro (h1 | h1)
    · exact Or.inl (by simpa using h1)
    · exact Or.inr (by simpa using h1)
  · rintro (h1 | h1)
    · exact Or.inl (by simp [h1])
    · exact Or.inr (by simpa using h1)

/-- C8: for every export call, the trailer is emitted (as the last member of
the objects dictionary) iff the selection is empty or contains "trailer";
every other object is emitted iff the selection is empty or contains its
`obj:<id> <gen> R` key; the emitted `maxobjectid` reflects the full graph
regardless of the selection. -/
theorem C8_export_selection (pdf : ExportPDF) (wanted : List String)
    (out : WriteOutput) (h : writeJSON 2 pdf wanted = Except.ok out) :
    ("trailer" ∈ out.entries.map Prod.fst ↔
      (wanted = [] ∨ "trailer" ∈ wanted)) ∧
    ((wanted = [] ∨ "trailer" ∈ wanted) →
      (out.entries.map Prod.fst).getLast? = some "trailer") ∧
    (∀ w ∈ pdf.objects,
      ("obj:" ++ w.unparse ∈ out.entries.map Prod.fst ↔
        (wanted = [] ∨ "obj:" ++ w.unparse ∈ wanted))) ∧
    out.maxobjectid = pdf.objectCount := by
  unfold writeJSON at h
  rw [if_neg (by decide)] at h
  simp only [Except.ok.injEq] at h
  subst h
  dsimp only
  rw [foldl_writeEntryStep]
  simp only [List.nil_append]
  by_cases hc : (wanted.isEmpty || wanted.contains "trailer") = true
  · have hcp : wanted = [] ∨ "trailer" ∈ wanted := (sel_cond_iff _ _).mp hc
    rw [if_pos hc]
    refine ⟨?_, ?_, ?_, trivial⟩
    · rw [List.map_append, List.mem_append]
      exact iff_of_true (Or.inr (by simp)) hcp
    · intro _
      rw [List.map_append]
      exact List.getLast?_concat _
    · intro w hw
      rw [List.map_append, List.mem_append]
      constructor
      · intro hmem
        rcases hmem with hmem | hmem
        · rcases (mem_objPart_keys _ _ _ _).mp hmem with ⟨o, _, hk, hcond⟩
          rw [hk] at hcond
          exact (sel_cond_iff _ _).mp (by simpa using hcond)
        · simp only [List.map_cons, List.map_nil, List.mem_singleton] at hmem
          exact absurd hmem (obj_key_ne_trailer _)
      · intro hsel
        left
        refine (mem_objPart_keys _ _ _ _).mpr ⟨w, hw, rfl, ?_⟩
        simpa using (sel_cond_iff _ _).mpr hsel
  · have hcp : ¬(wanted = [] ∨ "trailer" ∈ wanted) := fun hor =>
      hc ((sel_cond_iff _ _).mpr hor)
    rw [if_neg hc]
    refine ⟨?_, fun hsel => absurd hsel hcp, ?_, trivial⟩
    · constructor
      · intro hmem
        rcases (mem_objPart_keys _ _ _ _).mp hmem with ⟨o, _, hk, _⟩
        exact absurd hk (obj_key_ne_trailer _)
      · intro hsel
        exact absurd hsel hcp
    · intro w hw
      constructor
      · intro hmem
        rcases (mem_objPart_keys _ _ _ _).mp hmem with ⟨o, _, hk, hcond⟩
        rw [hk] at hcond
        exact (sel_cond_iff _ _).mp (by simpa using hcond)
      · intro hsel
        refine (mem_objPart_keys _ _ _ _).mpr ⟨w, hw, rfl, ?_⟩
        simpa using (sel_cond_iff _ _).mpr hsel

/-- Witness for C8: exporting a two-object graph with the selection
consisting only of "trailer" emits solely the trailer entry while
`maxobjectid` still reflects the full graph. -/
theorem C8_export_selection_witness :
    writeJSON 2
        { objects := [⟨1, 0, false⟩, ⟨2, 0, true⟩], objectCount := 2,
          version := "1.3" }
        ["trailer"] =
      Except.ok
        { pdfversion := "1.3", maxobjectid := 2,
          entries := [("trailer", EntryKind.objectEntry)] } ∧
    ("trailer" ∈
        ([("trailer", EntryKind.objectEntry)] :
          List (String × EntryKind)).map Prod.fst ↔
      ((["trailer"] : List String) = [] ∨
        "trailer" ∈ (["trailer"] : List String))) := by
  constructor
  · rfl
  · exact (C8_export_selection
      { objects := [⟨1, 0, false⟩, ⟨2, 0, true⟩], objectCount := 2,
        version := "1.3" }
      ["trailer"]
      { pdfversion := "1.3", maxobjectid := 2,
        entries := [("trailer", EntryKind.objectEntry)] }
      rfl).1

/-! ## Preservation lemmas for the event-level claims -/

@[simp]
lemma nestedState_parse_error (r : Reactor) (k : String) (v : JSON)
    (n : State) :
    (r.nestedState k v n).parse_error = (r.parse_error || !v.isDictionary) := by
  unfold Reactor.nestedState
  split <;> simp_all

@[simp]
lemma nestedState_errors (r : Reactor) (k : String) (v : JSON) (n : State) :
    (r.nestedState k v n).errors = (r.errors || !v.isDictionary) := by
  unfold Reactor.nestedState
  split <;> simp_all

@[simp]
lemma nestedState_pdf_warns (r : Reactor) (k : String) (v : JSON) (n : State) :
    (r.nestedState k v n).pdf.warns =
      r.pdf.warns ++
        (if v.isDictionary then []
         else [(v.start, "\"" ++ k ++ "\" must be a dictionary")]) := by
  unfold Reactor.nestedState
  split <;> simp_all

@[simp]
lemma nestedState_saw_value (r : Reactor) (k : String) (v : JSON) (n : State) :
    (r.nestedState k v n).saw_value = r.saw_value := by
  unfold Reactor.nestedState
  split <;> simp

@[simp]
lemma nestedState_saw_stream (r : Reactor) (k : String) (v : JSON) (n : State) :
    (r.nestedState k v n).saw_stream = r.saw_stream := by
  unfold Reactor.nestedState
  split <;> simp

@[simp]
lemma nestedState_state_stack (r : Reactor) (k : String) (v : JSON)
    (n : State) :
    (r.nestedState k v n).state_stack = r.state_stack := by
  unfold Reactor.nestedState
  split <;> simp

@[simp]
lemma reserveObject_state (r : Reactor) (a b : List Char) :
    (r.reserveObject a b).2.state = r.state := by
  unfold Reactor.reserveObject
  dsimp only
  split <;> simp

@[simp]
lemma mkDirect_state (r : Reactor) (o : QObj) :
    (mkDirect r o).2.state = r.state := rfl

lemma dictionaryItem_parse_error_mono (r r' : Reactor) (k : String) (v : JSON)
    (h : r.dictionaryItem k v = Except.ok r') (hp : r.parse_error = true) :
    r'.parse_error = true := by
  unfold Reactor.dictionaryItem at h
  rcases hstate : r.state <;> rw [hstate] at h <;> simp [hp] at h
  all_goals (repeat' split at h)
  all_goals (try simp only [Except.ok.injEq] at h)
  all_goals (try subst h)
  all_goals simp_all

set_option maxHeartbeats 2000000 in
lemma containerEnd_parse_error_mono (r : Reactor) (v : JSON)
    (hp : r.parse_error = true) :
    (r.containerEnd v).parse_error = true := by
  unfold Reactor.containerEnd
  rcases hs : r.state_stack with _ | ⟨s, rest⟩
  · exact hp
  · dsimp only
    rcases s
    all_goals (repeat' split)
    all_goals simp_all

lemma arrayItem_parse_error_mono (r : Reactor) (v : JSON)
    (hp : r.parse_error = true) :
    (r.arrayItem v).parse_error = true := by
  unfold Reactor.arrayItem
  repeat' split
  all_goals simp_all

lemma step_parse_error_mono (e : Event) (r r' : Reactor)
    (h : r.step e = Except.ok r') (hp : r.parse_error = true) :
    r'.parse_error = true := by
  cases e with
  | dictionaryStart =>
      simp only [Reactor.step, Except.ok.injEq] at h
      subst h
      exact hp
  | arrayStart =>
      simp only [Reactor.step] at h
      unfold Reactor.arrayStart Reactor.containerStart at h
      dsimp only at h
      split at h
      · exact absurd h (by simp)
      · simp only [Except.ok.injEq] at h
        subst h
        exact hp
  | containerEnd v =>
      simp only [Reactor.step, Except.ok.injEq] at h
      subst h
      exact containerEnd_parse_error_mono r v hp
  | dictionaryItem k v =>
      simp only [Reactor.step] at h
      exact dictionaryItem_parse_error_mono r r' k v h hp
  | arrayItem v =>
      simp only [Reactor.step, Except.ok.injEq] at h
      subst h
      exact arrayItem_parse_error_mono r v hp
  | topLevelScalar =>
      exact absurd h (by simp [Reactor.step, Reactor.topLevelScalar])

lemma runEvents_parse_error_mono (es : List Event) (r r' : Reactor)
    (h : runEvents es r = Except.ok r') (hp : r.parse_error = true) :
    r'.parse_error = true := by
  induction es generalizing r with
  | nil =>
      simp only [runEvents, Except.ok.injEq] at h
      subst h
      exact hp
  | cons e t ih =>
      simp only [runEvents] at h
      rcases hs : r.step e with x | r2
      · rw [hs] at h
        exact absurd h (by simp)
      · rw [hs] at h
        exact ih r2 h (step_parse_error_mono e r r2 hs hp)

/-! ## C9 -/

/-- C9: the `parse_error` flag is never cleared once set: it survives any
further event sequence; while it is set, closing an object entry inside the
objects container records no validation error, a dictionary item in the
generic-object state leaves the reactor untouched, and an array item does
too. -/
theorem C9_parse_error_latch :
    (∀ (es : List Event) (r r' : Reactor),
      runEvents es r = Except.ok r' → r.parse_error = true →
        r'.parse_error = true) ∧
    (∀ (r : Reactor) (v : JSON) (rest : List State),
      r.state_stack = st_objects :: rest → r.parse_error = true →
        (r.containerEnd v).pdf.warns = r.pdf.warns) ∧
    (∀ (r : Reactor) (k : String) (v : JSON),
      r.state = st_object → r.parse_error = true →
        r.dictionaryItem k v = Except.ok r) ∧
    (∀ (r : Reactor) (v : JSON),
      r.state = st_object → r.parse_error = true → r.arrayItem v = r) := by
  refine ⟨runEvents_parse_error_mono, ?_, ?_, ?_⟩
  · intro r v rest hs hp
    unfold Reactor.containerEnd
    rw [hs]
    dsimp only
    rw [if_neg (by decide), if_pos rfl, if_pos hp]
  · intro r k v h1 hp
    unfold Reactor.dictionaryItem
    rw [h1]
    rw [if_neg (by decide), if_neg (by decide), if_neg (by decide),
      if_neg (by decide), if_neg (by decide), if_neg (by decide),
      if_neg (by decide), if_pos rfl]
    simp [hp]
  · intro r v h1 hp
    unfold Reactor.arrayItem
    rw [h1]
    simp [hp]

/-- A reactor state with the parse-error flag latched, used to witness C9. -/
def c9r : Reactor :=
  { initReactor pdf0 false with
    parse_error := true
    state := st_object
    state_stack := [st_objects, st_qpdf, st_top, st_initial]
    cur_object := "obj:1 0 R" }

/-- Witness for C9 at the concrete latched state. -/
theorem C9_parse_error_latch_witness :
    (Reactor.dictionaryStart c9r).parse_error = true ∧
    (c9r.containerEnd (jv jdict 5 9)).pdf.warns = c9r.pdf.warns ∧
    c9r.dictionaryItem "/X" (jv jnull 6 7) = Except.ok c9r ∧
    c9r.arrayItem (jv jnull 6 7) = c9r := by
  refine ⟨?_, ?_, ?_, ?_⟩
  · exact C9_parse_error_latch.1 [Event.dictionaryStart] c9r
      (Reactor.dictionaryStart c9r) rfl rfl
  · exact C9_parse_error_latch.2.1 c9r (jv jdict 5 9)
      [st_qpdf, st_top, st_initial] rfl rfl
  · exact C9_parse_error_latch.2.2.1 c9r "/X" (jv jnull 6 7) rfl rfl
  · exact C9_parse_error_latch.2.2.2 c9r (jv jnull 6 7) rfl rfl

/-! ## C5 -/

/-- Whether `makeObject` hits the "unrecognized string value" error for this
value: a string matching none of the four string patterns. -/
def unrecognizedString (v : JSON) : Bool :=
  match v.val with
  | jstring s =>
      (indirect_obj_re s.data).isNone && (unicode_re s.data).isNone &&
        (binary_re s.data).isNone && !name_re s.data
  | _ => false

@[simp]
lemma makeObject_errors (r : Reactor) (v : JSON) :
    (r.makeObject v).2.errors = (r.errors || unrecognizedString v) := by
  unfold Reactor.makeObject unrecognizedString
  repeat' split
  all_goals simp_all

@[simp]
lemma makeObject_pdf_warns (r : Reactor) (v : JSON) :
    (r.makeObject v).2.pdf.warns =
      r.pdf.warns ++
        (if unrecognizedString v then [(v.start, "unrecognized string value")]
         else []) := by
  unfold Reactor.makeObject unrecognizedString
  repeat' split
  all_goals simp_all

@[simp]
lemma isEmpty_append (l l2 : List (Nat × String)) :
    (l ++ l2).isEmpty = (l.isEmpty && l2.isEmpty) := by
  cases l <;> simp [List.isEmpty]

/-- The reactor's `errors` flag is set exactly when warnings have been
recorded on the document (used with an initially warning-free document). -/
def errSync (r : Reactor) : Prop :=
  r.errors = !r.pdf.warns.isEmpty

set_option maxHeartbeats 2000000 in
lemma containerEnd_errSync (r : Reactor) (v : JSON) (hi : errSync r) :
    errSync (r.containerEnd v) := by
  unfold Reactor.containerEnd
  rcases hs : r.state_stack with _ | ⟨s, rest⟩
  · exact hi
  · dsimp only
    rcases s
    all_goals (repeat' split)
    all_goals simp_all [errSync, foldl_replaceWithNull_warns]

set_option maxHeartbeats 2000000 in
lemma dictionaryItem_errSync (r r' : Reactor) (k : String) (v : JSON)
    (h : r.dictionaryItem k v = Except.ok r') (hi : errSync r) :
    errSync r' := by
  unfold Reactor.dictionaryItem at h
  rcases hstate : r.state <;> rw [hstate] at h <;> simp at h
  all_goals (repeat' split at h)
  all_goals (try simp only [Except.ok.injEq] at h)
  all_goals (try subst h)
  all_goals (try (rcases hu : unrecognizedString v))
  all_goals (try (rcases hd : v.isDictionary))
  all_goals simp_all [errSync]

lemma arrayItem_errSync (r : Reactor) (v : JSON) (hi : errSync r) :
    errSync (r.arrayItem v) := by
  unfold Reactor.arrayItem
  repeat' split
  all_goals (try (rcases hu : unrecognizedString v))
  all_goals simp_all [errSync]

lemma step_errSync (e : Event) (r r' : Reactor)
    (h : r.step e = Except.ok r') (hi : errSync r) : errSync r' := by
  cases e with
  | dictionaryStart =>
      simp only [Reactor.step, Except.ok.injEq] at h
      subst h
      exact hi
  | arrayStart =>
      simp only [Reactor.step] at h
      unfold Reactor.arrayStart Reactor.containerStart at h
      dsimp only at h
      split at h
      · exact absurd h (by simp)
      · simp only [Except.ok.injEq] at h
        subst h
        exact hi
  | containerEnd v =>
      simp only [Reactor.step, Except.ok.injEq] at h
      subst h
      exact containerEnd_errSync r v hi
  | dictionaryItem k v =>
      simp only [Reactor.step] at h
      exact dictionaryItem_errSync r r' k v h hi
  | arrayItem v =>
      simp only [Reactor.step, Except.ok.injEq] at h
      subst h
      exact arrayItem_errSync r v hi
  | topLevelScalar =>
      exact absurd h (by simp [Reactor.step, Reactor.topLevelScalar])

lemma runEvents_errSync (es : List Event) (r r' : Reactor)
    (h : runEvents es r = Except.ok r') (hi : errSync r) : errSync r' := by
  induction es generalizing r with
  | nil =>
      simp only [runEvents, Except.ok.injEq] at h
      subst h
      exact hi
  | cons e t ih =>
      simp only [runEvents] at h
      rcases hs : r.step e with x | r2
      · rw [hs] at h
        exact absurd h (by simp)
      · rw [hs] at h
        exact ih r2 h (step_errSync e r r2 hs hi)

/-- C5: if the whole event stream is consumed without a fatal error,
the import call fails (with an error message naming the input) exactly when at
least one recoverable error was recorded (each recorded entry being an
offset/message pair in `warns`), and succeeds exactly when none was. -/
theorem C5_import_fails_iff_errors (name : String) (events : List Event)
    (mbc : Bool) (p0 : PDFState) (r : Reactor)
    (hw0 : p0.warns = [])
    (hrun : runEvents events (initReactor p0 mbc) = Except.ok r) :
    (importJSON name events mbc p0 =
        Except.error (name ++ ": errors found in JSON") ↔ r.pdf.warns ≠ []) ∧
    (importJSON name events mbc p0 = Except.ok r.pdf ↔ r.pdf.warns = []) := by
  have hsync : errSync r := by
    apply runEvents_errSync events (initReactor p0 mbc) r hrun
    simp [errSync, initReactor, hw0]
  unfold importJSON
  rw [hrun]
  unfold Reactor.anyErrors
  by_cases he : r.errors = true
  · have hw : r.pdf.warns ≠ [] := by
      rw [errSync, he] at hsync
      intro hnil
      rw [hnil] at hsync
      simp at hsync
    simp [he, hw]
  · have hw : r.pdf.warns = [] := by
      rw [errSync] at hsync
      rcases hl : r.pdf.warns with _ | ⟨a, t⟩
      · rfl
      · rw [hl] at hsync
        simp at hsync
        exact absurd hsync he
    simp [he, hw]

/-- An event stream whose run records one recoverable error (root closes
without a "qpdf-v2" key). -/
def c5events : List Event :=
  [Event.dictionaryStart, Event.containerEnd (jv jdict 0 2)]

/-- The reactor state after `c5events`. -/
def c5r : Reactor :=
  match runEvents c5events (initReactor pdf0 false) with
  | Except.ok r => r
  | Except.error _ => initReactor pdf0 false

/-- Witness for C5: the concrete run records one error and the import call
fails with the input's name in the message. -/
theorem C5_import_fails_iff_errors_witness :
    importJSON "in.json" c5events false pdf0 =
      Except.error ("in.json" ++ ": errors found in JSON") := by
  exact (C5_import_fails_iff_errors "in.json" c5events false pdf0 c5r
    rfl rfl).1.mpr (by decide)

end QPDFJson
